import Mathlib

/-!
Shallow embedding of the voru player engine: the queue model, the playback
state machine and the volume policy from src/player.rs, the error
classification layer from src/app.rs, the remote-control surface from
src/server.rs, the vector helpers from src/traits.rs and the track model
from src/track.rs.

Modelling conventions:
- Durations are natural numbers counted in whole seconds (std Duration
  arithmetic used by the code: addition, saturating subtraction, min).
- f32 volume values are modelled as rationals.
- The rodio backend session is modelled by a Sink record; opening and
  decoding a file is modelled as always succeeding, so the Io / Play /
  Seek failure constructors exist in the error type but are never produced
  by the pure model.
- The randomized comparator sort used by Shuffle for Vec (traits.rs) is
  modelled by passing the resulting permutation of the queue as an explicit
  parameter: the only guarantee Rust gives for sort_by with an arbitrary
  comparator is that the result is some permutation of the input.
- The shared PlayerState snapshot is modelled by its volume field, the only
  snapshot field the claims under verification inspect; the metadata,
  status and position fields are omitted.
- Playlists and the playlist-based queue operations are not needed by any
  claim and are omitted.
-/

namespace Voru

/-- Durations in whole seconds. -/
abbrev Duration := Nat

/-- Models std Duration.from_secs(1), used by the seek clamp. -/
def ONE_SEC : Duration := 1

/-- MAX_VOLUME constant from src/player.rs. -/
def MAX_VOLUME : ℚ := 2

/-- Models f32.clamp as used by Player.set_volume. -/
def clampQ (v lo hi : ℚ) : ℚ := min (max v lo) hi

/-- Io error kinds distinguished by App.catch_error (io ErrorKind.NotFound
against everything else). -/
inductive IoErrorKind where
  | notFound
  | other
deriving DecidableEq, Repr

/-- PlaybackError from src/player.rs. The Io, Play and Seek constructors
carry the display string of the wrapped foreign error; the Play constructor
additionally records whether the wrapped error is
rodio PlayError.DecoderError(UnrecognizedFormat), the case App.catch_error
matches on. -/
inductive PlaybackError where
  | Io (kind : IoErrorKind) (msg : String)
  | Play (unrecognizedFormat : Bool) (msg : String)
  | SeekFail (msg : String)
  | NoAudio
  | NoTrack
  | NoPlaylist
  | NotPlaying
  | NoMore
  | EmptyQueue
deriving DecidableEq, Repr

/-- Display strings of PlaybackError given by the thiserror attributes in
src/player.rs. -/
def PlaybackError.display : PlaybackError → String
  | .Io _ m => "I/O error: " ++ m
  | .Play _ m => "[rodio] Play error: " ++ m
  | .SeekFail m => "[rodio] Seek error: " ++ m
  | .NoAudio => "No audio is currently playing"
  | .NoTrack => "No such track"
  | .NoPlaylist => "No such playlist"
  | .NotPlaying => "Nothing is being playing"
  | .NoMore => "No more tracks to play"
  | .EmptyQueue => "Queue is empty"

/-- Result of () or PlaybackError, mirroring PlaybackResult from
src/player.rs. -/
inductive PlaybackResult where
  | ok
  | error (e : PlaybackError)
deriving DecidableEq, Repr

/-- PlayState from src/player.rs. -/
inductive PlayState where
  | Playing
  | Paused
  | Stopped
  | Ended
deriving DecidableEq, Repr

/-- LoopState from src/player.rs. -/
inductive LoopState where
  | NoneLoop
  | Queue
  | Shuffle
deriving DecidableEq, Repr

/-- Cycle.cycle_next for LoopState. -/
def LoopState.cycle_next : LoopState → LoopState
  | .NoneLoop => .Queue
  | .Queue => .Shuffle
  | .Shuffle => .NoneLoop

/-- Cycle.cycle_prev for LoopState. -/
def LoopState.cycle_prev : LoopState → LoopState
  | .Shuffle => .Queue
  | .Queue => .NoneLoop
  | .NoneLoop => .Shuffle

/-- Track from src/track.rs.  The id is the globally unique counter value,
dataDuration is the duration stored in the optional TrackData (none exactly
when the track has no data), and streamDuration models the total_duration
reported by the rodio decoder for the file at this path (used by
Playback.play_file as a fallback). Title, album, artist and filename play
no role in any claim and are omitted. -/
structure Track where
  id : Nat
  path : String
  dataDuration : Option Duration
  streamDuration : Option Duration
deriving DecidableEq, Repr

/-- Track.try_duration from src/track.rs. -/
def Track.try_duration (t : Track) : Option Duration := t.dataDuration

/-- Track.duration from src/track.rs: the duration if any, otherwise zero. -/
def Track.duration (t : Track) : Duration := t.try_duration.getD 0

/-- QueueTrack from src/player.rs (the code spells the first constructor
Signle). -/
inductive QueueTrack where
  | Signle (track : Track)
  | Playlist (track : Track) (playlistIndex : Nat)
deriving DecidableEq, Repr

/-- Deref for QueueTrack: the underlying track. -/
def QueueTrack.track : QueueTrack → Track
  | .Signle t => t
  | .Playlist t _ => t

/-- Track id seen through the deref. -/
def QueueTrack.id (t : QueueTrack) : Nat := t.track.id

/-- Track duration seen through the deref. -/
def QueueTrack.duration (t : QueueTrack) : Duration := t.track.duration

/-- Track try_duration seen through the deref. -/
def QueueTrack.try_duration (t : QueueTrack) : Option Duration :=
  t.track.try_duration

/-- Summing helper used by calculate_queue_dur and calculate_elapsed: the
fold acc + t.duration() over a run of queue tracks. -/
def sumDur (ts : List QueueTrack) : Duration :=
  ts.foldl (fun acc t => acc + t.duration) 0

/-- MoveTo for Vec from src/traits.rs: remove the item at fromIdx and insert
it at toIdx.  Vec.remove panics when fromIdx is out of bounds; the model
returns the list unchanged there, and the only caller (queue_move_to)
guards fromIdx against the length first. -/
def vecMoveTo (l : List QueueTrack) (fromIdx toIdx : Nat) : List QueueTrack :=
  match l[fromIdx]? with
  | none => l
  | some item => (l.eraseIdx fromIdx).insertIdx toIdx item

/-- Model of a live rodio Sink: its volume, playhead position, paused flag
and whether the queued source has drained (sink.empty()). -/
structure Sink where
  volume : ℚ
  pos : Duration
  paused : Bool
  drained : Bool
deriving DecidableEq, Repr

/-- A freshly created sink with one source appended: playing from the
start at the default volume 1. -/
def Sink.fresh : Sink :=
  { volume := 1, pos := 0, paused := false, drained := false }

/-- Playback from src/player.rs: at most one sink plus the remembered
duration used for clamped seeking. -/
structure Playback where
  sink : Option Sink
  duration : Option Duration
deriving DecidableEq, Repr

/-- Playback.play_path / play_file: stop any current sink, build a fresh
sink for the file, and remember duration.or(source.total_duration()).
File open and decoding are modelled as succeeding. -/
def Playback.play_path (pb : Playback) (streamDuration : Option Duration)
    (duration : Option Duration) : PlaybackResult × Playback :=
  let dur := match duration with
    | some d => some d
    | none => streamDuration
  (.ok, { pb with sink := some Sink.fresh, duration := dur })

/-- Playback.resume: sink.play(), NoAudio when no sink. -/
def Playback.resume (pb : Playback) : PlaybackResult × Playback :=
  match pb.sink with
  | none => (.error .NoAudio, pb)
  | some s => (.ok, { pb with sink := some { s with paused := false } })

/-- Playback.pause: sink.pause(), NoAudio when no sink. -/
def Playback.pause (pb : Playback) : PlaybackResult × Playback :=
  match pb.sink with
  | none => (.error .NoAudio, pb)
  | some s => (.ok, { pb with sink := some { s with paused := true } })

/-- Playback.stop: stop and drop the sink, NoAudio when no sink. -/
def Playback.stop (pb : Playback) : PlaybackResult × Playback :=
  match pb.sink with
  | none => (.error .NoAudio, pb)
  | some _ => (.ok, { pb with sink := none })

/-- Playback.seek: NoAudio when no sink, otherwise clamp the requested
position to min(pos, duration - 1s) when a duration is known and seek
there (the backend seek itself is modelled as succeeding). -/
def Playback.seek (pb : Playback) (pos : Duration) : PlaybackResult × Playback :=
  match pb.sink with
  | none => (.error .NoAudio, pb)
  | some s =>
    let pos := match pb.duration with
      | some dur => min pos (dur - ONE_SEC)
      | none => pos
    (.ok, { pb with sink := some { s with pos := pos } })

/-- Playback.set_volume: NoAudio when no sink, otherwise set the sink
volume. -/
def Playback.set_volume (pb : Playback) (volume : ℚ) : PlaybackResult × Playback :=
  match pb.sink with
  | none => (.error .NoAudio, pb)
  | some s => (.ok, { pb with sink := some { s with volume := volume } })

/-- Playback.pos: the sink position if any. -/
def Playback.pos (pb : Playback) : Option Duration :=
  pb.sink.map Sink.pos

/-- PlayerState snapshot from src/player.rs, restricted to the volume
field (the only snapshot field the claims inspect). -/
structure PlayerState where
  volume : ℚ
deriving DecidableEq, Repr

/-- Player from src/player.rs: the playback backend, the queue with its
derived aggregates, the current and last track bookkeeping, the volume and
mute policy, the loop state and the shared snapshot. -/
structure Player where
  playback : Playback
  queue : List QueueTrack
  queue_dur : Duration
  elapsed : Duration
  last_track_index : Option Nat
  cur_track_index : Option Nat
  cur_track : Option QueueTrack
  volume : ℚ
  muted : Bool
  loopstate : LoopState
  state : PlayerState
deriving DecidableEq, Repr

/-- Initial player built by Player.new. -/
def Player.init : Player :=
  { playback := { sink := none, duration := none }
    queue := []
    queue_dur := 0
    elapsed := 0
    last_track_index := none
    cur_track_index := none
    cur_track := none
    volume := 1
    muted := false
    loopstate := .NoneLoop
    state := { volume := 1 } }

/-- Player.playstate: Stopped without a sink, Ended when the sink has
drained, then Paused or Playing from the sink flag. -/
def Player.playstate (p : Player) : PlayState :=
  match p.playback.sink with
  | none => .Stopped
  | some s =>
    if s.drained then .Ended
    else if s.paused then .Paused
    else .Playing

/-- Player.pos: the current position, zero when nothing is playing. -/
def Player.pos (p : Player) : Duration :=
  (p.playback.pos).getD 0

/-- calculate_queue_dur: recompute the total queue duration. -/
def Player.calculate_queue_dur (p : Player) : Player :=
  { p with queue_dur := sumDur p.queue }

/-- calculate_elapsed: recompute the duration of the tracks strictly before
the current one. -/
def Player.calculate_elapsed (p : Player) : Player :=
  match p.cur_track_index with
  | some cur => { p with elapsed := sumDur (p.queue.take cur) }
  | none => { p with elapsed := 0 }

/-- is_track_index_current from src/player.rs. -/
def Player.is_track_index_current (p : Player) (track_index : Nat) : Bool :=
  p.cur_track_index = some track_index

/-- current_is_last from src/player.rs: whether the current track index is
at or past len - 1 (saturating). -/
def Player.current_is_last (p : Player) : Bool :=
  match p.cur_track_index with
  | some i => p.queue.length - 1 ≤ i
  | none => false

/-- Player.play from src/player.rs: look the track up (NoTrack when out of
range), load it into the backend, apply the effective volume, update the
last and current track bookkeeping and recompute elapsed.  The snapshot
metadata update is omitted (the snapshot model carries only the volume,
which play does not touch). -/
def Player.play (p : Player) (track_index : Nat) : PlaybackResult × Player :=
  match p.queue[track_index]? with
  | none => (.error .NoTrack, p)
  | some track =>
    match p.playback.play_path track.track.streamDuration track.try_duration with
    | (.error e, pb) => (.error e, { p with playback := pb })
    | (.ok, pb) =>
      match (if p.muted then pb.set_volume 0 else pb.set_volume p.volume) with
      | (.error e, pb2) => (.error e, { p with playback := pb2 })
      | (.ok, pb2) =>
        let last :=
          match p.cur_track_index with
          | some cur =>
            if p.last_track_index = some track_index then none else some cur
          | none => p.last_track_index
        let p := { p with
          playback := pb2
          last_track_index := last
          cur_track_index := some track_index
          cur_track := some track }
        (.ok, p.calculate_elapsed)

/-- Player.replay: play the first track of the queue. -/
def Player.replay (p : Player) : PlaybackResult × Player :=
  p.play 0

/-- Player.queue_shuffle from src/player.rs.  The permutation produced by
the randomized-comparator sort is passed in as the shuffled parameter;
afterwards, when a track is current, its new index is the first queue
position holding the same track id and elapsed is recomputed. -/
def Player.queue_shuffle (p : Player) (shuffled : List QueueTrack) : Player :=
  let p := { p with queue := shuffled }
  match p.cur_track with
  | some cur_track =>
    match p.queue.findIdx? (fun t => t.id = cur_track.id) with
    | some new_index =>
      ({ p with cur_track_index := some new_index }).calculate_elapsed
    | none => p
  | none => p

/-- Player.play_next from src/player.rs: NotPlaying without a current
index; at the last entry dispatch on the loop state (NoMore, replay, or
shuffle then replay); otherwise play the next index. -/
def Player.play_next (p : Player) (shuffled : List QueueTrack) :
    PlaybackResult × Player :=
  match p.cur_track_index with
  | none => (.error .NotPlaying, p)
  | some index =>
    if p.current_is_last then
      match p.loopstate with
      | .NoneLoop => (.error .NoMore, p)
      | .Queue => p.replay
      | .Shuffle => (p.queue_shuffle shuffled).replay
    else
      p.play (index + 1)

/-- Player.play_prev from src/player.rs. -/
def Player.play_prev (p : Player) : PlaybackResult × Player :=
  match p.cur_track_index with
  | none => (.error .NotPlaying, p)
  | some index =>
    if index = 0 then (.error .NoMore, p)
    else p.play (index - 1)

/-- Player.resume from src/player.rs: replay the current track when it has
ended, otherwise resume the backend. -/
def Player.resume (p : Player) : PlaybackResult × Player :=
  if p.playstate = .Ended then
    match p.cur_track_index with
    | some cur_index => p.play cur_index
    | none => (.ok, p)
  else
    let (r, pb) := p.playback.resume
    (r, { p with playback := pb })

/-- Player.pause from src/player.rs. -/
def Player.pause (p : Player) : PlaybackResult × Player :=
  let (r, pb) := p.playback.pause
  (r, { p with playback := pb })

/-- Player.stop from src/player.rs: clear the current track and index, then
stop the backend (which fails with NoAudio when no sink is loaded). -/
def Player.stop (p : Player) : PlaybackResult × Player :=
  let p := { p with cur_track := none, cur_track_index := none }
  let (r, pb) := p.playback.stop
  (r, { p with playback := pb })

/-- Player.toggle from src/player.rs. -/
def Player.toggle (p : Player) : PlaybackResult × Player :=
  match p.playstate with
  | .Paused => p.resume
  | .Ended => p.resume
  | .Stopped => p.resume
  | .Playing => p.pause

/-- Player.seek from src/player.rs. -/
def Player.seek (p : Player) (pos : Duration) : PlaybackResult × Player :=
  let (r, pb) := p.playback.seek pos
  (r, { p with playback := pb })

/-- Player.seek_forward from src/player.rs. -/
def Player.seek_forward (p : Player) (dur : Duration) : PlaybackResult × Player :=
  p.seek (p.pos + dur)

/-- Player.seek_backward from src/player.rs (saturating subtraction). -/
def Player.seek_backward (p : Player) (dur : Duration) : PlaybackResult × Player :=
  p.seek (p.pos - dur)

/-- Player.set_volume from src/player.rs: store the clamped volume, then
write the effective volume (zero while muted) into the shared snapshot and
apply it to the backend. -/
def Player.set_volume (p : Player) (volume : ℚ) : PlaybackResult × Player :=
  let p := { p with volume := clampQ volume 0 MAX_VOLUME }
  if p.muted then
    let p := { p with state := { p.state with volume := 0 } }
    let (r, pb) := p.playback.set_volume 0
    (r, { p with playback := pb })
  else
    let p := { p with state := { p.state with volume := p.volume } }
    let (r, pb) := p.playback.set_volume p.volume
    (r, { p with playback := pb })

/-- Player.volume_up from src/player.rs. -/
def Player.volume_up (p : Player) (value : ℚ) : PlaybackResult × Player :=
  p.set_volume (p.volume + value)

/-- Player.volume_down from src/player.rs. -/
def Player.volume_down (p : Player) (value : ℚ) : PlaybackResult × Player :=
  p.set_volume (p.volume - value)

/-- Player.set_muted from src/player.rs: record the flag, then apply the
effective volume to the backend (NoAudio when no sink). -/
def Player.set_muted (p : Player) (muted : Bool) : PlaybackResult × Player :=
  let p := { p with muted := muted }
  let (r, pb) :=
    if p.muted then p.playback.set_volume 0
    else p.playback.set_volume p.volume
  (r, { p with playback := pb })

/-- Player.mute_toggle from src/player.rs. -/
def Player.mute_toggle (p : Player) : PlaybackResult × Player :=
  p.set_muted (!p.muted)

/-- Player.queue_add from src/player.rs. -/
def Player.queue_add (p : Player) (track : QueueTrack) : Player :=
  ({ p with queue := p.queue ++ [track] }).calculate_queue_dur

/-- Player.queue_add_tracks from src/player.rs. -/
def Player.queue_add_tracks (p : Player) (tracks : List QueueTrack) : Player :=
  ({ p with queue := p.queue ++ tracks }).calculate_queue_dur

/-- Player.queue_set from src/player.rs: replace the queue, recompute the
total duration, then stop. -/
def Player.queue_set (p : Player) (tracks : List QueueTrack) :
    PlaybackResult × Player :=
  (({ p with queue := tracks }).calculate_queue_dur).stop

/-- Player.queue_clear from src/player.rs: empty the queue, recompute the
total duration, then stop. -/
def Player.queue_clear (p : Player) : PlaybackResult × Player :=
  (({ p with queue := [] }).calculate_queue_dur).stop

/-- Player.queue_remove from src/player.rs: EmptyQueue when the queue is
empty; removing the current index stops or reloads the slot; removing
another index decrements the current index when it sat after the removed
one.  A failure of the inner stop or play propagates before the aggregate
recomputation, exactly as the question-mark operator does. -/
def Player.queue_remove (p : Player) (index : Nat) : PlaybackResult × Player :=
  if p.queue.isEmpty then (.error .EmptyQueue, p)
  else if p.is_track_index_current index then
    let p := { p with queue := p.queue.eraseIdx index }
    if p.queue.isEmpty then
      match p.stop with
      | (.error e, p) => (.error e, p)
      | (.ok, p) => (.ok, (p.calculate_queue_dur).calculate_elapsed)
    else
      match p.play index with
      | (.error e, p) => (.error e, p)
      | (.ok, p) => (.ok, (p.calculate_queue_dur).calculate_elapsed)
  else
    let p := { p with queue := p.queue.eraseIdx index }
    let p :=
      match p.cur_track_index with
      | some cur_index =>
        if cur_index > index then { p with cur_track_index := some (cur_index - 1) }
        else p
      | none => p
    (.ok, (p.calculate_queue_dur).calculate_elapsed)

/-- Player.queue_move_to from src/player.rs: NoTrack when the source index
is out of bounds, clamp the target index, move the entry, then patch the
current index only when it equals the clamped target or the source. -/
def Player.queue_move_to (p : Player) (track_index to_index : Nat) :
    PlaybackResult × Player :=
  let queue_len := p.queue.length
  if track_index ≥ queue_len then (.error .NoTrack, p)
  else
    let to_index := min to_index (queue_len - 1)
    let p := { p with queue := vecMoveTo p.queue track_index to_index }
    let p :=
      if p.is_track_index_current to_index then
        { p with cur_track_index := some track_index }
      else if p.is_track_index_current track_index then
        { p with cur_track_index := some to_index }
      else p
    (.ok, p.calculate_elapsed)

/-- Queue and current-index invariant stated by the spec: a current index
stays inside the queue and points at the loaded entry, and an empty queue
has neither a current index nor a loaded entry. -/
def Player.Wf (p : Player) : Prop :=
  (∀ i, p.cur_track_index = some i →
    i < p.queue.length ∧ p.cur_track = p.queue[i]?) ∧
  (p.queue = [] → p.cur_track_index = none ∧ p.cur_track = none)

/-- Notif from src/app.rs. -/
inductive Notif where
  | normal (s : String)
  | error (s : String)
deriving DecidableEq, Repr

/-- UpdateError from src/app.rs, with the CmdError and Unknown payloads
modelled by their display strings. -/
inductive UpdateError where
  | Playback (e : PlaybackError)
  | Cmd (msg : String)
  | Unknown (msg : String)
deriving DecidableEq, Repr

/-- Display strings of UpdateError given by the thiserror attributes in
src/app.rs. -/
def UpdateError.display : UpdateError → String
  | .Playback e => "Playback error: " ++ e.display
  | .Cmd m => "Command error: " ++ m
  | .Unknown m => "Something went wrong :( : " ++ m

/-- Error branch of App.catch_error from src/app.rs: the notification value
written into the app state for a given error, following the match arms in
source order.  A none result is the silent no-op case. -/
def App.catchNotif : UpdateError → Option Notif
  | .Playback (.Io .notFound _) =>
    some (.error "Couldn't play the track: No such file")
  | .Playback (.Play true _) =>
    some (.error "Couldn't play the track: Unrecognized format")
  | .Playback .NoAudio => none
  | .Playback .NoTrack => none
  | .Playback .NoPlaylist => none
  | .Playback .EmptyQueue => none
  | .Playback .NotPlaying => none
  | .Playback e => some (.error e.display)
  | .Cmd m => some (.error m)
  | e => some (.error e.display)

/-- ServerAction from src/server.rs; the Seek offset is a signed duration
in the same whole-second unit as Duration. -/
inductive ServerAction where
  | Play
  | Pause
  | Stop
  | PlayPause
  | SeekBy (offset : Int)
  | Volume (vol : ℚ)
  | Next
  | Prev
  | Shuffle
deriving DecidableEq, Repr

/-- Action from src/main.rs, restricted to the two values the server-action
handler produces. -/
inductive Action where
  | Nope
  | Draw
deriving DecidableEq, Repr

/-- Propagation helper for the question-mark operator inside
try_handle_server_action: an engine error becomes an UpdateError result,
success falls through to Ok(Draw). -/
def App.stepDraw : PlaybackResult × Player → Except UpdateError Action × Player
  | (.error e, p) => (.error (.Playback e), p)
  | (.ok, p) => (.ok .Draw, p)

/-- App.try_handle_server_action from src/app.rs.  Next and Shuffle reach
the randomized shuffle, so the permutation parameter is threaded through. -/
def App.try_handle_server_action (p : Player) (shuffled : List QueueTrack)
    (action : ServerAction) : Except UpdateError Action × Player :=
  match action with
  | .Play => App.stepDraw p.resume
  | .Pause => App.stepDraw p.pause
  | .Stop => App.stepDraw p.stop
  | .PlayPause => App.stepDraw p.toggle
  | .SeekBy offset =>
    let dur := offset.natAbs
    if offset > 0 then App.stepDraw (p.seek_forward dur)
    else if offset < 0 then App.stepDraw (p.seek_backward dur)
    else (.ok .Nope, p)
  | .Volume vol => App.stepDraw (p.set_volume vol)
  | .Next => App.stepDraw (p.play_next shuffled)
  | .Prev => App.stepDraw p.play_prev
  | .Shuffle => (.ok .Draw, p.queue_shuffle shuffled)

/-- Server.set_volume from src/server.rs: a remote volume request is
forwarded unchanged as a Volume action on the command channel. -/
def Server.set_volume (volume : ℚ) : ServerAction :=
  .Volume volume

/-- Server.volume from src/server.rs: the Volume property exposed over the
remote-control surface reads the snapshot volume. -/
def Server.volume (state : PlayerState) : ℚ :=
  state.volume

/-! Concrete fixtures used to evaluate the definitions on the scenarios of
the spec: three distinct tracks of 100, 200 and 150 seconds. -/

/-- Track of 100 seconds. -/
def trackA : Track :=
  { id := 0, path := "a.mp3", dataDuration := some 100, streamDuration := none }

/-- Track of 200 seconds. -/
def trackB : Track :=
  { id := 1, path := "b.mp3", dataDuration := some 200, streamDuration := none }

/-- Track of 150 seconds. -/
def trackC : Track :=
  { id := 2, path := "c.mp3", dataDuration := some 150, streamDuration := none }

/-- Queue entry for trackA. -/
def entryA : QueueTrack := .Signle trackA

/-- Queue entry for trackB. -/
def entryB : QueueTrack := .Signle trackB

/-- Queue entry for trackC. -/
def entryC : QueueTrack := .Signle trackC

/-- Player reached from the initial state by queueing A and B and playing
index 1. -/
def playerAB : Player :=
  (((Player.init.queue_add entryA).queue_add entryB).play 1).2

/-- Player reached from the initial state by queueing A, B and C and
playing index 1. -/
def playerABC : Player :=
  ((((Player.init.queue_add entryA).queue_add entryB).queue_add entryC).play 1).2

/-- Player with a live session at position 299 of a known 300 second
duration. -/
def playerSeek : Player :=
  { Player.init with
    playback := { sink := some { Sink.fresh with pos := 299 }, duration := some 300 } }

/-! Helper lemmas shared by the claim theorems. -/

/-- Evaluation of Player.play at an in-range index: the backend load
succeeds, so play returns Ok and the state with the fresh session, the
effective volume, the updated bookkeeping and the recomputed elapsed. -/
theorem Player.play_eq (p : Player) (i : Nat) (track : QueueTrack)
    (h : p.queue[i]? = some track) :
    p.play i = (.ok, { p with
      playback :=
        { sink := some { Sink.fresh with volume := if p.muted then 0 else p.volume }
          duration :=
            match track.try_duration with
            | some d => some d
            | none => track.track.streamDuration }
      last_track_index :=
        match p.cur_track_index with
        | some cur => if p.last_track_index = some i then none else some cur
        | none => p.last_track_index
      cur_track_index := some i
      cur_track := some track
      elapsed := sumDur (p.queue.take i) }) := by
  unfold Player.play
  rw [h]
  by_cases hm : p.muted <;>
    simp only [hm, if_true, if_false, Playback.play_path, Playback.set_volume,
      Player.calculate_elapsed, Bool.false_eq_true, ite_true, ite_false]

/-- Fields of the player untouched by queue_shuffle: everything except the
queue itself, the current index and elapsed. -/
theorem Player.queue_shuffle_fields (p : Player) (s : List QueueTrack) :
    (p.queue_shuffle s).queue = s ∧
    (p.queue_shuffle s).cur_track = p.cur_track ∧
    (p.queue_shuffle s).muted = p.muted ∧
    (p.queue_shuffle s).volume = p.volume ∧
    (p.queue_shuffle s).playback = p.playback ∧
    (p.queue_shuffle s).loopstate = p.loopstate ∧
    (p.queue_shuffle s).last_track_index = p.last_track_index ∧
    (p.queue_shuffle s).state = p.state := by
  unfold Player.queue_shuffle
  cases hc : p.cur_track with
  | none => simp
  | some cur =>
    cases hf : List.findIdx? (fun t => decide (t.id = cur.id)) s with
    | none => simp [hf]
    | some j => simp [hf, Player.calculate_elapsed]

/-- Evaluation of Player.set_muted with a live sink: the flag is recorded
and the effective volume is applied to the sink. -/
theorem Player.set_muted_eq (p : Player) (s : Sink) (m : Bool)
    (hs : p.playback.sink = some s) :
    p.set_muted m = (.ok, { p with
      muted := m
      playback := { p.playback with
        sink := some { s with volume := if m then 0 else p.volume } } }) := by
  obtain ⟨pb, q, qd, el, lti, cti, ct, vol, mu, ls, st⟩ := p
  obtain ⟨sk, du⟩ := pb
  have h2 : sk = some s := hs
  subst h2
  cases m <;> rfl

/-- Evaluation of Player.set_muted without a sink: the flag is still
recorded but the call reports NoAudio. -/
theorem Player.set_muted_eq_noaudio (p : Player) (m : Bool)
    (hs : p.playback.sink = none) :
    p.set_muted m = (.error .NoAudio, { p with muted := m }) := by
  obtain ⟨pb, q, qd, el, lti, cti, ct, vol, mu, ls, st⟩ := p
  obtain ⟨sk, du⟩ := pb
  have h2 : sk = none := hs
  subst h2
  cases m <;> rfl

/-- Evaluation of Player.set_volume with a live sink: the clamped value is
stored, the effective volume goes to the snapshot and the sink. -/
theorem Player.set_volume_eq (p : Player) (s : Sink) (v : ℚ)
    (hs : p.playback.sink = some s) :
    p.set_volume v = (.ok, { p with
      volume := clampQ v 0 MAX_VOLUME
      state := { p.state with volume := if p.muted then 0 else clampQ v 0 MAX_VOLUME }
      playback := { p.playback with
        sink := some { s with volume := if p.muted then 0 else clampQ v 0 MAX_VOLUME } } }) := by
  obtain ⟨pb, q, qd, el, lti, cti, ct, vol, mu, ls, st⟩ := p
  obtain ⟨sk, du⟩ := pb
  have h2 : sk = some s := hs
  subst h2
  cases mu <;> rfl

/-- Evaluation of Player.set_volume without a sink: the clamped value is
still stored and written to the snapshot, but the call reports NoAudio. -/
theorem Player.set_volume_eq_noaudio (p : Player) (v : ℚ)
    (hs : p.playback.sink = none) :
    p.set_volume v = (.error .NoAudio, { p with
      volume := clampQ v 0 MAX_VOLUME
      state := { p.state with volume := if p.muted then 0 else clampQ v 0 MAX_VOLUME } }) := by
  obtain ⟨pb, q, qd, el, lti, cti, ct, vol, mu, ls, st⟩ := p
  obtain ⟨sk, du⟩ := pb
  have h2 : sk = none := hs
  subst h2
  cases mu <;> rfl

/-- Evaluation of Player.stop without a sink: the current track and index
are cleared before the backend stop fails with NoAudio. -/
theorem Player.stop_eq_noaudio (p : Player) (hs : p.playback.sink = none) :
    p.stop = (.error .NoAudio, { p with cur_track := none, cur_track_index := none }) := by
  obtain ⟨pb, q, qd, el, lti, cti, ct, vol, mu, ls, st⟩ := p
  obtain ⟨sk, du⟩ := pb
  have h2 : sk = none := hs
  subst h2
  rfl

/-- Evaluation of Player.queue_shuffle when a track is loaded: the new
queue is installed, the new current index is the first position whose
entry has the same track id, and elapsed is recomputed there. -/
theorem Player.queue_shuffle_eq_of_cur (p : Player) (shuffled : List QueueTrack)
    (t : QueueTrack) (hct : p.cur_track = some t) :
    p.queue_shuffle shuffled =
      match shuffled.findIdx? (fun u => u.id = t.id) with
      | some new_index =>
        ({ p with queue := shuffled, cur_track_index := some new_index }).calculate_elapsed
      | none => { p with queue := shuffled } := by
  obtain ⟨pb, q, qd, el, lti, cti, ct, vol, mu, ls, st⟩ := p
  have h2 : ct = some t := hct
  subst h2
  rfl

/-- The second component of the question-mark propagation helper is the
player state regardless of success or failure. -/
theorem App.stepDraw_snd (rp : PlaybackResult × Player) :
    (App.stepDraw rp).2 = rp.2 := by
  obtain ⟨r, q⟩ := rp
  cases r <;> rfl

/-! Claim theorems. -/

/-- C1: the spec states the queue/current-index invariant (current index in
range and pointing at the loaded entry; empty queue means no current index
and no loaded entry), and the claim asserts every queue or playback
operation preserves it.  The code violates it: from the reachable,
invariant-satisfying state playerAB (queue [A, B], B playing at index 1),
queue_remove(1) removes the current last entry and then tries to reload
index 1 of the one-entry remainder, which fails with NoTrack and leaves
cur_track_index = some 1 dangling past the end with the removed entry
still loaded; likewise, from playerABC (queue [A, B, C], B playing at
index 1), queue_move_to(0, 2) shifts the current entry to index 0 but
patches the current index only when it equals the source or target, so the
stale index 1 now points at C while B is loaded.  This theorem evaluates
the code at both failing inputs. -/
theorem queue_invariant_violated :
    playerAB.Wf ∧
    (playerAB.queue_remove 1).1 = .error .NoTrack ∧
    (playerAB.queue_remove 1).2.cur_track_index = some 1 ∧
    (playerAB.queue_remove 1).2.queue.length = 1 ∧
    ¬ (playerAB.queue_remove 1).2.Wf ∧
    playerABC.Wf ∧
    ¬ (playerABC.queue_move_to 0 2).2.Wf := by
  refine ⟨⟨?_, ?_⟩, rfl, rfl, rfl, ?_, ⟨?_, ?_⟩, ?_⟩
  · intro i hi
    rw [show playerAB.cur_track_index = some 1 from rfl] at hi
    injection hi with h
    subst h
    exact ⟨by decide, rfl⟩
  · intro h
    exact absurd (congrArg List.length h) (by decide)
  · intro h
    exact absurd (h.1 1 rfl).1 (by decide)
  · intro i hi
    rw [show playerABC.cur_track_index = some 1 from rfl] at hi
    injection hi with h
    subst h
    exact ⟨by decide, rfl⟩
  · intro h
    exact absurd (congrArg List.length h) (by decide)
  · intro h
    exact absurd (h.1 1 rfl).2 (by decide)

/-- C2 counterexample: the claim quantifies over every current index i
whose removal leaves the queue non-empty, but when i is the last index
(queue [A, B], current index 1), the removal leaves [A] non-empty and the
loaded entry afterwards is still B, not the entry previously at i + 1
(there is none: queue[2]? = none), so the claim as stated is false. -/
theorem queue_remove_current_last_cex :
    playerAB.queue ≠ [] ∧
    playerAB.cur_track_index = some 1 ∧
    (playerAB.queue_remove 1).2.queue ≠ [] ∧
    ¬ ((playerAB.queue_remove 1).2.cur_track = playerAB.queue[1 + 1]?) := by
  refine ⟨?_, rfl, ?_, by decide⟩
  · intro h
    exact absurd (congrArg List.length h) (by decide)
  · intro h
    exact absurd (congrArg List.length h) (by decide)

/-- C2 amended: for every queue whose current index is i, provided i is
not the last index (so the slot i still exists after the removal — the
last-index case fails with NoTrack and is the subject of the
counterexample), queue_remove(i) succeeds, afterwards the current index
equals i, the loaded entry is the entry that previously occupied index
i + 1, and elapsed equals the sum of durations of the entries now strictly
before index i.  The concrete spec scenario ([A(100s), B(200s), C(150s)],
current 1, remove(1)) is the witness below. -/
theorem queue_remove_current_spec (p : Player) (i : Nat)
    (hcur : p.cur_track_index = some i) (hlt : i + 1 < p.queue.length) :
    (p.queue_remove i).1 = .ok ∧
    (p.queue_remove i).2.queue = p.queue.eraseIdx i ∧
    (p.queue_remove i).2.cur_track_index = some i ∧
    (p.queue_remove i).2.cur_track = p.queue[i + 1]? ∧
    (p.queue_remove i).2.elapsed = sumDur ((p.queue.eraseIdx i).take i) := by
  have hne : p.queue.isEmpty = false := by
    simp only [List.isEmpty_eq_false, ne_eq]
    intro h
    rw [h] at hlt
    exact absurd hlt (by simp)
  have hlen : (p.queue.eraseIdx i).length = p.queue.length - 1 :=
    List.length_eraseIdx_of_lt (Nat.lt_of_succ_lt hlt)
  have hne2 : (p.queue.eraseIdx i).isEmpty = false := by
    simp only [List.isEmpty_eq_false, ne_eq]
    intro h
    rw [h] at hlen
    simp at hlen
    omega
  obtain ⟨track, htrack⟩ : ∃ track, p.queue[i + 1]? = some track :=
    ⟨p.queue[i + 1], List.getElem?_eq_getElem hlt⟩
  have hget : (p.queue.eraseIdx i)[i]? = some track := by
    rw [List.getElem?_eraseIdx_of_ge p.queue i i (Nat.le_refl i), htrack]
  unfold Player.queue_remove
  rw [if_neg (by simp [hne]), if_pos (by simp [Player.is_track_index_current, hcur]),
    if_neg (by simp [hne2]),
    Player.play_eq { p with queue := p.queue.eraseIdx i } i track hget]
  exact ⟨rfl, rfl, rfl, htrack.symm, rfl⟩

/-- C2 witness: the spec scenario, queue [A(100s), B(200s), C(150s)] with
B current at index 1; remove(1) succeeds, leaves queue [A, C] with C
loaded at index 1 and elapsed recomputed over the entry before index 1. -/
theorem queue_remove_current_spec_witness :
    (playerABC.queue_remove 1).1 = .ok ∧
    (playerABC.queue_remove 1).2.queue = playerABC.queue.eraseIdx 1 ∧
    (playerABC.queue_remove 1).2.cur_track_index = some 1 ∧
    (playerABC.queue_remove 1).2.cur_track = playerABC.queue[1 + 1]? ∧
    (playerABC.queue_remove 1).2.elapsed = sumDur ((playerABC.queue.eraseIdx 1).take 1) :=
  queue_remove_current_spec playerABC 1 rfl (by decide)

/-- C4: play_next fails NotPlaying when no track is current; below the last
index it plays index + 1; at the last index it fails NoMore under
LoopState.NoneLoop leaving the whole state unchanged, replays index 0
under LoopState.Queue, and under LoopState.Shuffle installs the shuffled
queue and replays its index 0.  The shuffled parameter carries the
permutation the randomized sort would produce. -/
theorem play_next_spec (p : Player) (shuffled : List QueueTrack)
    (hperm : shuffled.Perm p.queue) :
    (p.cur_track_index = none → p.play_next shuffled = (.error .NotPlaying, p)) ∧
    (∀ i, p.cur_track_index = some i → i + 1 < p.queue.length →
      (p.play_next shuffled).1 = .ok ∧
      (p.play_next shuffled).2.queue = p.queue ∧
      (p.play_next shuffled).2.cur_track_index = some (i + 1) ∧
      (p.play_next shuffled).2.cur_track = p.queue[i + 1]?) ∧
    (∀ i, p.cur_track_index = some i → i + 1 = p.queue.length →
      (p.loopstate = .NoneLoop → p.play_next shuffled = (.error .NoMore, p)) ∧
      (p.loopstate = .Queue →
        (p.play_next shuffled).1 = .ok ∧
        (p.play_next shuffled).2.queue = p.queue ∧
        (p.play_next shuffled).2.cur_track_index = some 0 ∧
        (p.play_next shuffled).2.cur_track = p.queue[0]?) ∧
      (p.loopstate = .Shuffle →
        (p.play_next shuffled).1 = .ok ∧
        (p.play_next shuffled).2.queue = shuffled ∧
        (p.play_next shuffled).2.cur_track_index = some 0 ∧
        (p.play_next shuffled).2.cur_track = shuffled[0]?)) := by
  refine ⟨?_, ?_, ?_⟩
  · intro h
    unfold Player.play_next
    rw [h]
  · intro i hcur hlt
    obtain ⟨track, htrack⟩ : ∃ track, p.queue[i + 1]? = some track :=
      ⟨p.queue[i + 1], List.getElem?_eq_getElem hlt⟩
    have hstep : p.play_next shuffled =
        if p.current_is_last = true then
          match p.loopstate with
          | .NoneLoop => (.error .NoMore, p)
          | .Queue => p.replay
          | .Shuffle => (p.queue_shuffle shuffled).replay
        else p.play (i + 1) := by
      unfold Player.play_next
      rw [hcur]
    rw [hstep, if_neg (by
      simp only [Player.current_is_last, hcur, decide_eq_true_eq]
      omega)]
    rw [Player.play_eq p (i + 1) track htrack]
    exact ⟨rfl, rfl, rfl, htrack.symm⟩
  · intro i hcur hlen
    have hlast : (p.current_is_last = true) := by
      simp only [Player.current_is_last, hcur, decide_eq_true_eq]
      omega
    have hstep : p.play_next shuffled =
        match p.loopstate with
        | .NoneLoop => (.error .NoMore, p)
        | .Queue => p.replay
        | .Shuffle => (p.queue_shuffle shuffled).replay := by
      unfold Player.play_next
      rw [hcur]
      exact if_pos hlast
    refine ⟨?_, ?_, ?_⟩
    · intro hl
      rw [hstep, hl]
    · intro hl
      obtain ⟨t0, ht0⟩ : ∃ t0, p.queue[0]? = some t0 :=
        ⟨_, List.getElem?_eq_getElem (by omega)⟩
      rw [hstep, hl]
      show (p.play 0).1 = .ok ∧ (p.play 0).2.queue = p.queue ∧
        (p.play 0).2.cur_track_index = some 0 ∧ (p.play 0).2.cur_track = p.queue[0]?
      rw [Player.play_eq p 0 t0 ht0]
      exact ⟨rfl, rfl, rfl, ht0.symm⟩
    · intro hl
      have hsq := (Player.queue_shuffle_fields p shuffled).1
      have hslen : shuffled.length = p.queue.length := hperm.length_eq
      obtain ⟨u, hu⟩ : ∃ u, shuffled[0]? = some u :=
        ⟨_, List.getElem?_eq_getElem (by omega)⟩
      have hq : (p.queue_shuffle shuffled).queue[0]? = some u := by
        rw [hsq, hu]
      rw [hstep, hl]
      show ((p.queue_shuffle shuffled).play 0).1 = .ok ∧
        ((p.queue_shuffle shuffled).play 0).2.queue = shuffled ∧
        ((p.queue_shuffle shuffled).play 0).2.cur_track_index = some 0 ∧
        ((p.queue_shuffle shuffled).play 0).2.cur_track = shuffled[0]?
      rw [Player.play_eq (p.queue_shuffle shuffled) 0 u hq]
      exact ⟨rfl, hsq, rfl, hu.symm⟩

/-- C4 witness: playerAB has queue [A, B] with current index 1 (the last)
and loop mode NoneLoop, so play_next returns NoMore and leaves the state
unchanged. -/
theorem play_next_spec_witness :
    playerAB.play_next playerAB.queue = (.error .NoMore, playerAB) :=
  ((play_next_spec playerAB playerAB.queue (List.Perm.refl _)).2.2 1 rfl
    (by decide)).1 rfl

/-- C5: with a loaded session whose duration is known to be d, seek_forward
and seek_backward clamp the requested position to min(request, d - 1s), so
the resulting position never exceeds d - 1s; backward seeking computes its
request with saturating subtraction, and positions are natural numbers, so
no position is ever negative. -/
theorem seek_clamped (p : Player) (s : Sink) (d dl : Duration)
    (hs : p.playback.sink = some s) (hd : p.playback.duration = some d) :
    ((p.seek_forward dl).1 = .ok ∧
     (p.seek_forward dl).2.pos = min (p.pos + dl) (d - ONE_SEC) ∧
     (p.seek_forward dl).2.pos ≤ d - ONE_SEC) ∧
    ((p.seek_backward dl).1 = .ok ∧
     (p.seek_backward dl).2.pos = min (p.pos - dl) (d - ONE_SEC) ∧
     (p.seek_backward dl).2.pos ≤ d - ONE_SEC) := by
  have hf : p.seek_forward dl = (.ok, { p with playback :=
      { sink := some { s with pos := min (p.pos + dl) (d - ONE_SEC) }
        duration := some d } }) := by
    unfold Player.seek_forward Player.seek Playback.seek
    rw [hs, hd]
  have hb : p.seek_backward dl = (.ok, { p with playback :=
      { sink := some { s with pos := min (p.pos - dl) (d - ONE_SEC) }
        duration := some d } }) := by
    unfold Player.seek_backward Player.seek Playback.seek
    rw [hs, hd]
  refine ⟨⟨?_, ?_, ?_⟩, ?_, ?_, ?_⟩
  · rw [hf]
  · rw [hf]
    rfl
  · rw [hf]
    exact min_le_right _ _
  · rw [hb]
  · rw [hb]
    rfl
  · rw [hb]
    exact min_le_right _ _

/-- C5 witness: duration 300s at position 299s; seek_forward(10) results in
position 299, not 309. -/
theorem seek_clamped_witness :
    (playerSeek.seek_forward 10).2.pos ≤ 300 - ONE_SEC ∧
    (playerSeek.seek_forward 10).2.pos = 299 :=
  ⟨(seek_clamped playerSeek { Sink.fresh with pos := 299 } 300 10 rfl rfl).1.2.2,
    by decide⟩

/-- C6: queue_shuffle is entry-identity-preserving.  The shuffled parameter
is the permutation produced by the randomized comparator sort (a
permutation of the queue is all Rust guarantees for sort_by with an
arbitrary comparator), so the multiset of entry identities is unchanged;
the loaded entry itself is untouched, and when a track is current, the new
current index is a position holding an entry with the same track id, with
elapsed recomputed as the sum of durations before that position. -/
theorem queue_shuffle_spec (p : Player) (shuffled : List QueueTrack)
    (hperm : shuffled.Perm p.queue) (hwf : p.Wf) :
    (((p.queue_shuffle shuffled).queue.map QueueTrack.id : Multiset Nat) =
      (p.queue.map QueueTrack.id : Multiset Nat)) ∧
    (p.queue_shuffle shuffled).cur_track = p.cur_track ∧
    (∀ i t, p.cur_track_index = some i → p.cur_track = some t →
      ∃ j, (p.queue_shuffle shuffled).cur_track_index = some j ∧
        j < (p.queue_shuffle shuffled).queue.length ∧
        (∃ u, (p.queue_shuffle shuffled).queue[j]? = some u ∧ u.id = t.id) ∧
        (p.queue_shuffle shuffled).elapsed =
          sumDur ((p.queue_shuffle shuffled).queue.take j)) := by
  refine ⟨?_, (Player.queue_shuffle_fields p shuffled).2.1, ?_⟩
  · rw [(Player.queue_shuffle_fields p shuffled).1]
    exact Multiset.coe_eq_coe.mpr (hperm.map QueueTrack.id)
  · intro i t hcur hct
    obtain ⟨hilen, hcurq⟩ := hwf.1 i hcur
    have htq : p.queue[i]? = some t := hcurq.symm.trans hct
    have htmem : t ∈ p.queue := List.mem_iff_getElem?.mpr ⟨i, htq⟩
    have htshuf : t ∈ shuffled := hperm.mem_iff.mpr htmem
    have hex : ∃ x, x ∈ shuffled ∧ (fun u : QueueTrack => decide (u.id = t.id)) x = true :=
      ⟨t, htshuf, by simp⟩
    have hfind : shuffled.findIdx? (fun u => u.id = t.id) =
        some (shuffled.findIdx (fun u => u.id = t.id)) :=
      List.findIdx?_eq_some_of_exists hex
    obtain ⟨hjlt, hpj, -⟩ := List.findIdx?_eq_some_iff_getElem.mp hfind
    refine ⟨shuffled.findIdx (fun u => u.id = t.id), ?_, ?_, ?_, ?_⟩
    · rw [Player.queue_shuffle_eq_of_cur p shuffled t hct, hfind]
      rfl
    · rw [Player.queue_shuffle_eq_of_cur p shuffled t hct, hfind]
      exact hjlt
    · refine ⟨shuffled[shuffled.findIdx (fun u => u.id = t.id)], ?_, of_decide_eq_true hpj⟩
      rw [Player.queue_shuffle_eq_of_cur p shuffled t hct, hfind]
      exact List.getElem?_eq_getElem hjlt
    · rw [Player.queue_shuffle_eq_of_cur p shuffled t hct, hfind]
      rfl

/-- C6 witness: from playerABC (queue [A, B, C], B current at index 1),
shuffling into the concrete permutation [C, A, B] keeps B loaded, moves the
current index to the position of B in the new order, and recomputes
elapsed before it. -/
theorem queue_shuffle_spec_witness :
    ∃ j, (playerABC.queue_shuffle [entryC, entryA, entryB]).cur_track_index = some j ∧
      j < (playerABC.queue_shuffle [entryC, entryA, entryB]).queue.length ∧
      (∃ u, (playerABC.queue_shuffle [entryC, entryA, entryB]).queue[j]? = some u ∧
        u.id = entryB.id) ∧
      (playerABC.queue_shuffle [entryC, entryA, entryB]).elapsed =
        sumDur ((playerABC.queue_shuffle [entryC, entryA, entryB]).queue.take j) :=
  (queue_shuffle_spec playerABC [entryC, entryA, entryB] (by decide)
    ⟨fun i hi => by
      rw [show playerABC.cur_track_index = some 1 from rfl] at hi
      injection hi with h
      subst h
      exact ⟨by decide, rfl⟩,
     fun h => absurd (congrArg List.length h) (by decide)⟩).2.2 1 entryB rfl rfl

/-- C7: with a loaded session, set_muted(true) then set_volume(x) for x in
the engine volume range then set_muted(false) stores x as the volume and
restores the effective output (the sink volume) to x: muting forces the
sink volume to 0 without touching the stored value that set_volume writes,
and unmuting re-applies the stored value. -/
theorem mute_set_unmute_restores (p : Player) (s : Sink) (x : ℚ)
    (hs : p.playback.sink = some s) (h0 : 0 ≤ x) (hmax : x ≤ MAX_VOLUME) :
    (((p.set_muted true).2.set_volume x).2.set_muted false).2.volume = x ∧
    ∃ s3, (((p.set_muted true).2.set_volume x).2.set_muted false).2.playback.sink =
        some s3 ∧ s3.volume = x := by
  have hclamp : clampQ x 0 MAX_VOLUME = x := by
    unfold clampQ
    rw [max_eq_left h0, min_eq_left hmax]
  have e1 := Player.set_muted_eq p s true hs
  have hs1 : (p.set_muted true).2.playback.sink = some { s with volume := 0 } := by
    rw [e1]
    rfl
  have e2 := Player.set_volume_eq (p.set_muted true).2 { s with volume := 0 } x hs1
  have hmut1 : (p.set_muted true).2.muted = true := by rw [e1]
  rw [hmut1, if_pos rfl, hclamp] at e2
  have hs2 : ((p.set_muted true).2.set_volume x).2.playback.sink =
      some { s with volume := 0 } := by
    rw [e2]
  have e3 := Player.set_muted_eq ((p.set_muted true).2.set_volume x).2
    { s with volume := 0 } false hs2
  have hvol2 : ((p.set_muted true).2.set_volume x).2.volume = x := by rw [e2]
  rw [hvol2] at e3
  constructor
  · rw [e3]
  · refine ⟨{ s with volume := if false then 0 else x }, ?_, by rfl⟩
    rw [e3]

/-- C7 witness: a player with a live default sink, x = 3/2 inside
[0, MAX_VOLUME]; the mute, set, unmute sequence stores 3/2 and leaves the
sink at effective volume 3/2. -/
theorem mute_set_unmute_restores_witness :
    (((playerSeek.set_muted true).2.set_volume (3 / 2)).2.set_muted false).2.volume = 3 / 2 ∧
    ∃ s3, (((playerSeek.set_muted true).2.set_volume (3 / 2)).2.set_muted false).2.playback.sink =
        some s3 ∧ s3.volume = 3 / 2 :=
  mute_set_unmute_restores playerSeek { Sink.fresh with pos := 299 } (3 / 2) rfl
    (by norm_num) (by norm_num [MAX_VOLUME])

/-- C3 counterexample: the claim lists NoMore among the errors the
interactive calling layer silences, but catch_error only silences NoAudio,
NoTrack, NoPlaylist, EmptyQueue and NotPlaying; a NoMore result falls
through to the catch-all arm and is surfaced as a visible error
notification. -/
theorem nomore_not_silent_cex :
    App.catchNotif (.Playback .NoMore) = some (.error "No more tracks to play") ∧
    App.catchNotif (.Playback .NoMore) ≠ none :=
  ⟨rfl, by decide⟩

/-- C3 amended: in the interactive calling layer, NoAudio, NoTrack,
NoPlaylist, EmptyQueue and NotPlaying results are silent no-ops (no
notification is written), while NoMore, Io, Play and Seek errors are all
surfaced as visible error notifications. -/
theorem catch_error_classification :
    App.catchNotif (.Playback .NoAudio) = none ∧
    App.catchNotif (.Playback .NoTrack) = none ∧
    App.catchNotif (.Playback .NoPlaylist) = none ∧
    App.catchNotif (.Playback .EmptyQueue) = none ∧
    App.catchNotif (.Playback .NotPlaying) = none ∧
    (∃ m, App.catchNotif (.Playback .NoMore) = some (.error m)) ∧
    (∀ k msg, ∃ m, App.catchNotif (.Playback (.Io k msg)) = some (.error m)) ∧
    (∀ b msg, ∃ m, App.catchNotif (.Playback (.Play b msg)) = some (.error m)) ∧
    (∀ msg, ∃ m, App.catchNotif (.Playback (.SeekFail msg)) = some (.error m)) := by
  refine ⟨rfl, rfl, rfl, rfl, rfl, ⟨_, rfl⟩, ?_, ?_, ?_⟩
  · intro k msg
    cases k <;> exact ⟨_, rfl⟩
  · intro b msg
    cases b <;> exact ⟨_, rfl⟩
  · intro msg
    exact ⟨_, rfl⟩

/-- C8 counterexample: a remote volume fraction is applied directly, not
rescaled into the engine volume domain: handling Volume(1/2) stores 1/2,
not 1/2 times MAX_VOLUME; and the Volume property exposed back reads the
snapshot volume, which after set_volume(2) is 2 and thus outside the 0..1
domain. -/
theorem remote_volume_cex :
    (App.try_handle_server_action Player.init [] (Server.set_volume (1 / 2))).2.volume
      = 1 / 2 ∧
    ¬ ((1 : ℚ) / 2 = 1 / 2 * MAX_VOLUME) ∧
    Server.volume (Player.init.set_volume 2).2.state = 2 ∧
    ¬ Server.volume (Player.init.set_volume 2).2.state ≤ 1 := by
  have hc1 : clampQ (1 / 2) 0 MAX_VOLUME = 1 / 2 := by
    unfold clampQ MAX_VOLUME
    rw [max_eq_left (by norm_num), min_eq_left (by norm_num)]
  have hc2 : clampQ 2 0 MAX_VOLUME = 2 := by
    unfold clampQ MAX_VOLUME
    rw [max_eq_left (by norm_num), min_eq_left (by norm_num)]
  have hvol : Server.volume (Player.init.set_volume 2).2.state = 2 := by
    rw [show Server.volume (Player.init.set_volume 2).2.state
        = (Player.init.set_volume 2).2.state.volume from rfl,
      Player.set_volume_eq_noaudio Player.init 2 rfl]
    show (if Player.init.muted = true then (0 : ℚ) else clampQ 2 0 MAX_VOLUME) = 2
    rw [if_neg (show ¬ (Player.init.muted = true) by decide)]
    exact hc2
  have hact : (App.try_handle_server_action Player.init [] (Server.set_volume (1 / 2))).2
      = (Player.init.set_volume (1 / 2)).2 :=
    App.stepDraw_snd (Player.init.set_volume (1 / 2))
  have hnr : ¬ ((1 : ℚ) / 2 = 1 / 2 * MAX_VOLUME) := by norm_num [MAX_VOLUME]
  refine ⟨?_, hnr, hvol, ?_⟩
  · rw [hact, Player.set_volume_eq_noaudio Player.init (1 / 2) rfl]
    exact hc1
  · rw [hvol]
    norm_num

/-- C8 amended: a remote volume request carries the fraction unchanged onto
the command channel and the handler applies it directly as the stored
volume after clamping to [0, MAX_VOLUME] (no rescaling); the snapshot
volume it writes is the effective volume (0 when muted, else the clamp),
so the Volume property exposed back over the remote-control surface lies
in [0, MAX_VOLUME], not necessarily in 0..1. -/
theorem remote_volume_spec (p : Player) (shuffled : List QueueTrack) (f : ℚ) :
    (App.try_handle_server_action p shuffled (Server.set_volume f)).2.volume
      = clampQ f 0 MAX_VOLUME ∧
    (App.try_handle_server_action p shuffled (Server.set_volume f)).2.state.volume
      = (if p.muted then 0 else clampQ f 0 MAX_VOLUME) ∧
    0 ≤ Server.volume (App.try_handle_server_action p shuffled (Server.set_volume f)).2.state ∧
    Server.volume (App.try_handle_server_action p shuffled (Server.set_volume f)).2.state
      ≤ MAX_VOLUME := by
  have hact : (App.try_handle_server_action p shuffled (Server.set_volume f)).2
      = (p.set_volume f).2 :=
    App.stepDraw_snd (p.set_volume f)
  have hfields : (p.set_volume f).2.volume = clampQ f 0 MAX_VOLUME ∧
      (p.set_volume f).2.state.volume = (if p.muted then 0 else clampQ f 0 MAX_VOLUME) := by
    cases hsk : p.playback.sink with
    | none =>
      rw [Player.set_volume_eq_noaudio p f hsk]
      exact ⟨rfl, rfl⟩
    | some s =>
      rw [Player.set_volume_eq p s f hsk]
      exact ⟨rfl, rfl⟩
  rw [show Server.volume (App.try_handle_server_action p shuffled
        (Server.set_volume f)).2.state
      = (App.try_handle_server_action p shuffled (Server.set_volume f)).2.state.volume
    from rfl, hact, hfields.1, hfields.2]
  refine ⟨rfl, rfl, ?_, ?_⟩
  · by_cases hm : p.muted
    · rw [if_pos hm]
    · rw [if_neg hm]
      exact le_min (le_max_right f 0) (by norm_num [MAX_VOLUME])
  · by_cases hm : p.muted
    · rw [if_pos hm]
      norm_num [MAX_VOLUME]
    · rw [if_neg hm]
      exact min_le_right _ _

/-- C9: when no playback session is loaded, stop, queue_set and queue_clear
return NoAudio and nevertheless have already mutated the engine state:
current track and index are cleared, and for queue_set and queue_clear the
queue has been replaced or emptied with its total duration recomputed. -/
theorem stop_mutates_before_error (p : Player) (ts : List QueueTrack)
    (hs : p.playback.sink = none) :
    (p.stop = (.error .NoAudio,
      { p with cur_track := none, cur_track_index := none })) ∧
    ((p.queue_set ts).1 = .error .NoAudio ∧
      (p.queue_set ts).2.queue = ts ∧
      (p.queue_set ts).2.queue_dur = sumDur ts ∧
      (p.queue_set ts).2.cur_track_index = none ∧
      (p.queue_set ts).2.cur_track = none) ∧
    ((p.queue_clear).1 = .error .NoAudio ∧
      (p.queue_clear).2.queue = [] ∧
      (p.queue_clear).2.queue_dur = sumDur [] ∧
      (p.queue_clear).2.cur_track_index = none ∧
      (p.queue_clear).2.cur_track = none) := by
  have hset : p.queue_set ts = ({ p with queue := ts, queue_dur := sumDur ts } : Player).stop :=
    rfl
  have hclear : p.queue_clear
      = ({ p with queue := [], queue_dur := sumDur [] } : Player).stop := rfl
  have h2 := Player.stop_eq_noaudio { p with queue := ts, queue_dur := sumDur ts } (by exact hs)
  have h3 := Player.stop_eq_noaudio
    { p with queue := ([] : List QueueTrack), queue_dur := sumDur [] } (by exact hs)
  refine ⟨Player.stop_eq_noaudio p hs, ?_, ?_⟩
  · rw [hset, h2]
    exact ⟨rfl, rfl, rfl, rfl, rfl⟩
  · rw [hclear, h3]
    exact ⟨rfl, rfl, rfl, rfl, rfl⟩

/-- C9 witness: the initial player has no session; queue_set([A]) reports
NoAudio yet the queue has been replaced and the current track cleared. -/
theorem stop_mutates_before_error_witness :
    (Player.init.queue_set [entryA]).1 = .error .NoAudio ∧
    (Player.init.queue_set [entryA]).2.queue = [entryA] ∧
    (Player.init.queue_set [entryA]).2.cur_track_index = none :=
  ⟨(stop_mutates_before_error Player.init [entryA] rfl).2.1.1,
   (stop_mutates_before_error Player.init [entryA] rfl).2.1.2.1,
   (stop_mutates_before_error Player.init [entryA] rfl).2.1.2.2.2.1⟩

/-- C10 counterexample: the claim says set_volume(v) writes the clamped
stored volume into the shared snapshot; while muted the code writes 0
instead: after set_muted(true) on the initial player, set_volume(1) stores
1 but writes 0 to the snapshot, which differs from clamp(1) = 1. -/
theorem set_volume_snapshot_muted_cex :
    ((Player.init.set_muted true).2.set_volume 1).1 = .error .NoAudio ∧
    ((Player.init.set_muted true).2.set_volume 1).2.volume = 1 ∧
    ((Player.init.set_muted true).2.set_volume 1).2.state.volume = 0 ∧
    ¬ (((Player.init.set_muted true).2.set_volume 1).2.state.volume
        = clampQ 1 0 MAX_VOLUME) := by
  have hc : clampQ 1 0 MAX_VOLUME = 1 := by
    unfold clampQ MAX_VOLUME
    rw [max_eq_left (by norm_num), min_eq_left (by norm_num)]
  refine ⟨rfl, ?_, rfl, ?_⟩
  · exact hc
  · rw [hc]
    show ¬ ((0 : ℚ) = 1)
    norm_num

/-- C10 amended: with no session loaded, set_volume(v) returns NoAudio yet
records clamp(v, 0, MAX_VOLUME) as the stored volume and writes the
effective volume (0 if muted, else the clamp) into the shared snapshot;
set_muted(b) returns NoAudio yet records the flag; and a subsequent
successful play applies the newly stored volume and mute state to the new
session sink. -/
theorem volume_mute_recorded_spec (p : Player) (v : ℚ) (b : Bool) (i : Nat)
    (track : QueueTrack) (hs : p.playback.sink = none)
    (hi : p.queue[i]? = some track) :
    ((p.set_volume v).1 = .error .NoAudio ∧
     (p.set_volume v).2.volume = clampQ v 0 MAX_VOLUME ∧
     (p.set_volume v).2.state.volume = (if p.muted then 0 else clampQ v 0 MAX_VOLUME)) ∧
    ((p.set_muted b).1 = .error .NoAudio ∧
     (p.set_muted b).2.muted = b) ∧
    ((((p.set_volume v).2.set_muted b).2.play i).1 = .ok ∧
     ∃ s, (((p.set_volume v).2.set_muted b).2.play i).2.playback.sink = some s ∧
       s.volume = (if b then 0 else clampQ v 0 MAX_VOLUME)) := by
  have e1 := Player.set_volume_eq_noaudio p v hs
  have e2 := Player.set_muted_eq_noaudio p b hs
  have hs1 : (p.set_volume v).2.playback.sink = none := by
    rw [e1]
    exact hs
  have e3 := Player.set_muted_eq_noaudio (p.set_volume v).2 b hs1
  have hmut2 : ((p.set_volume v).2.set_muted b).2.muted = b := by rw [e3]
  have hvol2 : ((p.set_volume v).2.set_muted b).2.volume = clampQ v 0 MAX_VOLUME := by
    rw [e3]
    rw [show ((p.set_volume v).2 : Player).volume = clampQ v 0 MAX_VOLUME from by rw [e1]]
  have hq : ((p.set_volume v).2.set_muted b).2.queue[i]? = some track := by
    rw [e3]
    rw [show ((p.set_volume v).2 : Player).queue = p.queue from by rw [e1]]
    exact hi
  have e4 := Player.play_eq ((p.set_volume v).2.set_muted b).2 i track hq
  refine ⟨⟨?_, ?_, ?_⟩, ⟨?_, ?_⟩, ?_, ?_⟩
  · rw [e1]
  · rw [e1]
  · rw [e1]
  · rw [e2]
  · rw [e2]
  · rw [e4]
  · refine ⟨{ Sink.fresh with volume :=
      if ((p.set_volume v).2.set_muted b).2.muted then 0
      else ((p.set_volume v).2.set_muted b).2.volume }, ?_, ?_⟩
    · rw [e4]
    · rw [hmut2, hvol2]

/-- C10 witness: a sessionless player with [A] queued, muted then volume
set to 3/2: both calls report NoAudio yet record their state, and a
subsequent play of index 0 applies the recorded values (muted, so the new
sink starts at effective volume 0). -/
theorem volume_mute_recorded_spec_witness :
    (((Player.init.queue_add entryA).set_volume (3 / 2)).1 = .error .NoAudio ∧
     ((Player.init.queue_add entryA).set_volume (3 / 2)).2.volume
        = clampQ (3 / 2) 0 MAX_VOLUME ∧
     ((Player.init.queue_add entryA).set_volume (3 / 2)).2.state.volume
        = (if (Player.init.queue_add entryA).muted then 0
           else clampQ (3 / 2) 0 MAX_VOLUME)) ∧
    (((Player.init.queue_add entryA).set_muted true).1 = .error .NoAudio ∧
     ((Player.init.queue_add entryA).set_muted true).2.muted = true) ∧
    (((((Player.init.queue_add entryA).set_volume (3 / 2)).2.set_muted true).2.play 0).1
        = .ok ∧
     ∃ s, ((((Player.init.queue_add entryA).set_volume (3 / 2)).2.set_muted
          true).2.play 0).2.playback.sink = some s ∧
       s.volume = (if true then 0 else clampQ (3 / 2) 0 MAX_VOLUME)) :=
  volume_mute_recorded_spec (Player.init.queue_add entryA) (3 / 2) true 0 entryA rfl rfl

end Voru
